import Mathlib

/-!
# skyportal — shallow embedding and verification

A shallow embedding of the core data pipeline of the `skyportal` flight
tracker (files `src/skyportal/aircraftlib.py`, `src/skyportal/networklib.py`,
`src/skyportal/maplib.py`, `src/skyportal/displaylib.py`), together with
theorems settling the frozen claims about it.

Conventions of the embedding:
* Python/JSON numbers are modelled as `ℚ` in the record-normalization code
  (every constant there — `0.3048`, `0.5144`, `/ 1000` — is an exact decimal)
  and as `ℝ` in the trigonometric map code.
* fallible Python code (subscript `KeyError` / `IndexError`, `math.asin`
  domain `ValueError`, division by zero) is modelled with `Except` / `Option`.
* payloads are assumed well-typed in the sense of the upstream API schemas:
  a wrongly-typed field is mapped to a `typeError` at the extraction site,
  where CPython may defer the failure to the first arithmetic use.
-/

/-- A JSON value as CircuitPython's `r.json()` delivers it. -/
inductive JVal where
  | null
  | bool (b : Bool)
  | num (q : ℚ)
  | str (s : String)
  deriving DecidableEq

/-- The Python exceptions the embedded code can raise. -/
inductive PyErr where
  | keyError (key : String)
  | indexError
  | typeError
  | attributeError
  deriving DecidableEq

/-- A keyed JSON object (an ADSB.lol aircraft record). -/
abbrev Record : Type := List (String × JVal)

/-- First binding of `key`, if any. -/
def Record.find? : Record → String → Option JVal
  | [], _ => none
  | (k, v) :: rest, key => if k = key then some v else Record.find? rest key

/-- `sv[key]`: raises `KeyError` when the key is absent. -/
def Record.index (sv : Record) (key : String) : Except PyErr JVal :=
  match sv.find? key with
  | some v => .ok v
  | none => .error (.keyError key)

/-- `sv.get(key, None)`, with a stored JSON `null` also giving Python `None`:
both the absent key and the `null` value collapse to `none`. -/
def Record.pyGet (sv : Record) (key : String) : Option JVal :=
  match sv.find? key with
  | some .null => none
  | some v => some v
  | none => none

/-- Python `str.strip()` with no argument: remove leading and trailing
whitespace characters. -/
def pyStrip (s : String) : String :=
  ⟨((s.data.dropWhile Char.isWhitespace).reverse.dropWhile Char.isWhitespace).reverse⟩

/-- `sv[i]` on a positional array: `IndexError` out of range. -/
def svIndex (sv : List JVal) (i : ℕ) : Except PyErr JVal :=
  match sv[i]? with
  | some v => .ok v
  | none => .error .indexError

def JVal.asStr : JVal → Except PyErr String
  | .str s => .ok s
  | _ => .error .typeError

def JVal.asNum : JVal → Except PyErr ℚ
  | .num q => .ok q
  | _ => .error .typeError

/-- A numeric field that the API may send as `null` (absent measurement). -/
def JVal.asOptNum : JVal → Except PyErr (Option ℚ)
  | .null => .ok none
  | .num q => .ok (some q)
  | _ => .error .typeError

def JVal.asBool : JVal → Except PyErr Bool
  | .bool b => .ok b
  | _ => .error .typeError

/-- `getattr(AircraftCategory, name, 0)`: the class-level integer attributes of
`AircraftCategory` (OpenSky names and the ADSB.lol `A0`…`C5` names, mapped onto
the OpenSky numbering), with default `0` for an unknown attribute name. -/
def AircraftCategory.getattr (name : String) : ℚ :=
  match name with
  | "NO_INFO" => 0
  | "NO_CATEGORY_INFO" => 1
  | "LIGHT" => 2
  | "SMALL" => 3
  | "LARGE" => 4
  | "HIGH_VORTEX_LARGE" => 5
  | "HEAVY" => 6
  | "HIGH_PERFORMANCE" => 7
  | "ROTORCRAFT" => 8
  | "GLIDER" => 9
  | "LIGHTER_THAN_AIR" => 10
  | "PARACHUTIST" => 11
  | "ULTRALIGHT" => 12
  | "RESERVED" => 13
  | "UAV" => 14
  | "SPACE" => 15
  | "SURFACE_EMERGENCY" => 16
  | "SURFACE_SERVICE" => 17
  | "POINT_OBSTACLE" => 18
  | "CLUSTER_OBSTACLE" => 19
  | "LINE_OBSTACLE" => 20
  | "A0" => 1
  | "A1" => 2
  | "A2" => 3
  | "A3" => 4
  | "A4" => 5
  | "A5" => 6
  | "A6" => 7
  | "A7" => 8
  | "B0" => 1
  | "B1" => 9
  | "B2" => 10
  | "B3" => 11
  | "B4" => 12
  | "B5" => 13
  | "B6" => 14
  | "B7" => 15
  | "C0" => 1
  | "C1" => 16
  | "C2" => 17
  | "C3" => 18
  | "C4" => 19
  | "C5" => 20
  | _ => 0

/-- The normalized aircraft state (`aircraftlib.AircraftState.__init__`). -/
structure AircraftState where
  icao : String
  callsign : Option String
  lat : Option ℚ
  lon : Option ℚ
  track : Option ℚ
  velocity_mps : Option ℚ
  on_ground : Bool
  baro_altitude_m : Option ℚ
  geo_altitude_m : Option ℚ
  vertical_rate_mps : Option ℚ
  aircraft_category : ℚ
  deriving DecidableEq, Inhabited

/-- `AircraftState.is_plottable`. -/
def AircraftState.is_plottable (s : AircraftState) : Bool :=
  if s.lat = none then false
  else if s.lon = none then false
  else if s.track = none then false
  else true

/-- `AircraftState.from_adsblol`. The first line of the source is
`if baro_alt := state_vector["alt_baro"] == "ground":` — by Python operator
precedence the walrus binds `baro_alt` to the *comparison result* (a `bool`),
not to the raw altitude value; the embedding reproduces that binding. -/
def AircraftState.from_adsblol (state_vector : Record) : Except PyErr AircraftState := do
  let alt_baro_raw ← state_vector.index "alt_baro"
  let baro_alt : Bool := alt_baro_raw == JVal.str "ground"
  let (baro_altitude_m, on_ground) : Option ℚ × Bool :=
    if baro_alt then
      (none, true)
    else
      -- `baro_alt *= 0.3048`: multiplies the Bool bound above
      -- (Python `False * 0.3048 = 0.0`), not the numeric altitude.
      (some ((if baro_alt then (1 : ℚ) else 0) * 0.3048), false)
  let callsign_raw : Option JVal :=
    match state_vector.pyGet "flight" with
    | none => state_vector.pyGet "r"
    | some v => some v
  let callsign : Option String ← match callsign_raw with
    | none => pure none
    | some v => do pure (some (← v.asStr))
  let track_raw : Option JVal :=
    match state_vector.pyGet "track" with
    | none => state_vector.pyGet "true_heading"
    | some v => some v
  let track : Option ℚ ← match track_raw with
    | none => pure none
    | some v => do pure (some (← v.asNum))
  let alt_geo : Option ℚ ← match state_vector.pyGet "alt_geo" with
    | none => pure none
    | some v => do pure (some ((← v.asNum) * 0.3048))
  let baro_rate : Option ℚ ← match state_vector.pyGet "baro_rate" with
    | none => pure none
    | some v => do pure (some ((← v.asNum) * 0.3048))
  let icao ← (← state_vector.index "hex").asStr
  let lat ← (← state_vector.index "lat").asOptNum
  let lon ← (← state_vector.index "lon").asOptNum
  let gs ← (← state_vector.index "gs").asNum
  let aircraft_category : ℚ :=
    match state_vector.find? "category" with
    | none => AircraftCategory.getattr "NO_INFO"
    | some (.str c) => AircraftCategory.getattr c
    | some _ => 0
  pure
    { icao := icao
      callsign := callsign
      lat := lat
      lon := lon
      track := track
      velocity_mps := some (gs * 0.5144)
      on_ground := on_ground
      baro_altitude_m := baro_altitude_m
      geo_altitude_m := alt_geo
      vertical_rate_mps := baro_rate
      aircraft_category := aircraft_category }

/-- `AircraftState.from_opensky` on the OpenSky positional state vector. -/
def AircraftState.from_opensky (state_vector : List JVal) : Except PyErr AircraftState := do
  let cs ← svIndex state_vector 1
  let callsign : Option String ← match cs with
    | .null => pure none
    | .str s =>
      let t := pyStrip s
      -- an empty string after stripping is treated as None
      pure (if t = "" then none else some t)
    | _ => .error .attributeError
  let icao ← (← svIndex state_vector 0).asStr
  let lat ← (← svIndex state_vector 6).asOptNum
  let lon ← (← svIndex state_vector 5).asOptNum
  let track ← (← svIndex state_vector 10).asOptNum
  let velocity_mps ← (← svIndex state_vector 9).asOptNum
  let on_ground ← (← svIndex state_vector 8).asBool
  let baro_altitude_m ← (← svIndex state_vector 7).asOptNum
  let geo_altitude_m ← (← svIndex state_vector 13).asOptNum
  let vertical_rate_mps ← (← svIndex state_vector 11).asOptNum
  let aircraft_category ← (← svIndex state_vector 17).asNum
  pure
    { icao := icao
      callsign := callsign
      lat := lat
      lon := lon
      track := track
      velocity_mps := velocity_mps
      on_ground := on_ground
      baro_altitude_m := baro_altitude_m
      geo_altitude_m := geo_altitude_m
      vertical_rate_mps := vertical_rate_mps
      aircraft_category := aircraft_category }

/-! ## networklib: `APIHandlerBase._parse_api_response` and `update` -/

/-- A decoded API payload after `_query_api`: the source reads the time field
(`flight_data[self._api_time_key]`) and the aircraft array
(`flight_data[self._aircraft_key]`) out of the JSON object. -/
structure Payload (α : Type) where
  time : ℚ
  ac : List α
  deriving DecidableEq

/-- The `for state_vector in flight_data[self._aircraft_key]` loop body of
`_parse_api_response`: each record goes through `self._aircraft_converter`
(with no surrounding exception handler), and with `SKIP_GROUND` set a state
with `on_ground` is dropped before being appended. -/
def parseStates {α : Type} (aircraft_converter : α → Except PyErr AircraftState)
    (skip_ground : Bool) : List α → Except PyErr (List AircraftState)
  | [] => .ok []
  | sv :: rest =>
    match aircraft_converter sv with
    | .error e => .error e
    | .ok state =>
      if skip_ground && state.on_ground then
        parseStates aircraft_converter skip_ground rest
      else
        match parseStates aircraft_converter skip_ground rest with
        | .error e => .error e
        | .ok states => .ok (state :: states)

/-- `APIHandlerBase._parse_api_response`, generic over the per-source
converter and time-unit conversion (identity for OpenSky, `/ 1000` for
ADSB.lol). An exception from the converter propagates: nothing catches it. -/
def _parse_api_response {α : Type} (aircraft_converter : α → Except PyErr AircraftState)
    (api_time_converter : ℚ → ℚ) (skip_ground : Bool) (flight_data : Payload α) :
    Except PyErr (List AircraftState × ℚ) := do
  let api_time := api_time_converter flight_data.time
  let states ← parseStates aircraft_converter skip_ground flight_data.ac
  pure (states, api_time)

/-- The ADSB.lol instantiation: `_api_time_converter = lambda _, t: t / 1000`,
`_aircraft_converter = AircraftState.from_adsblol`. -/
def parse_api_response_adsblol (skip_ground : Bool) (flight_data : Payload Record) :
    Except PyErr (List AircraftState × ℚ) :=
  _parse_api_response AircraftState.from_adsblol (fun t => t / 1000) skip_ground flight_data

/-- The mutable fields of an `APIHandlerBase`: `self.aircraft` and
`self.api_time`. -/
structure APIHandlerState where
  aircraft : List AircraftState
  api_time : ℚ
  deriving DecidableEq

/-- `APIHandlerBase.can_draw`: `bool(len(self.aircraft))`. -/
def can_draw (h : APIHandlerState) : Bool :=
  !h.aircraft.isEmpty

/-- How the `_query_api` call inside `update` can come out: a decoded payload,
a non-200 status or a `None` body (both raised as `RuntimeError`), or one of
the two timeout exceptions. -/
inductive FetchOutcome (α : Type) where
  | ok (flight_data : Payload α)
  | badStatus
  | emptyResponse
  | outOfRetries
  | timedOut
  deriving DecidableEq

/-- How `update` terminates, seen from its caller. -/
inductive UpdateResult where
  | success
  | apiException
  | apiTimeoutError
  | uncaught (e : PyErr)
  deriving DecidableEq

/-- `APIHandlerBase.update`: `self.aircraft, self.api_time = self._parse_api_response(...)`
runs only after both the fetch and the parse returned, so on any exception the
two fields keep their previous values. `RuntimeError` is re-raised as
`APIException`, the timeouts as `APITimeoutError`; a converter exception
(e.g. `KeyError`) matches no handler and escapes as itself. -/
def update {α : Type} (aircraft_converter : α → Except PyErr AircraftState)
    (api_time_converter : ℚ → ℚ) (skip_ground : Bool)
    (h : APIHandlerState) (fetch : FetchOutcome α) : APIHandlerState × UpdateResult :=
  match fetch with
  | .badStatus => (h, .apiException)
  | .emptyResponse => (h, .apiException)
  | .outOfRetries => (h, .apiTimeoutError)
  | .timedOut => (h, .apiTimeoutError)
  | .ok flight_data =>
    match _parse_api_response aircraft_converter api_time_converter skip_ground flight_data with
    | .ok (states, t) => ({ aircraft := states, api_time := t }, .success)
    | .error e => (h, .uncaught e)

/-! ## maplib: bounding box and pixel projection -/

/-- `math.radians`. -/
noncomputable def radians (x : ℝ) : ℝ := x * Real.pi / 180

/-- `math.degrees`. -/
noncomputable def degrees (x : ℝ) : ℝ := x * 180 / Real.pi

/-- `maplib.build_bounding_box`. The screen aspect ratio
(`SKYPORTAL_DISPLAY.width / SKYPORTAL_DISPLAY.height` in the source) is taken
as a parameter. `none` models the exceptions Python's `math` can raise on this
path: a division by zero at `/ cos(center_lat_rad)` and `math.asin`'s
`ValueError` on an argument outside `[-1, 1]`. There is no width validation in
the source: any `grid_width_mi`, zero or negative included, flows through. -/
noncomputable def build_bounding_box (map_center_lat map_center_lon : ℝ)
    (grid_width_mi : ℝ) (aspect_ratio : ℝ) : Option (ℝ × ℝ × ℝ × ℝ) :=
  let earth_radius_km : ℝ := 6378.1
  let center_lat_rad := radians map_center_lat
  let center_lon_rad := radians map_center_lon
  let grid_size_km := grid_width_mi * 1.6
  let ang_dist := grid_size_km / earth_radius_km
  let d_lat := ang_dist
  if Real.cos center_lat_rad = 0 then none
  else
    let asin_arg := Real.sin ang_dist / Real.cos center_lat_rad
    if 1 < |asin_arg| then none
    else
      let d_lon := Real.arcsin asin_arg * aspect_ratio
      let lat_min := degrees (center_lat_rad - d_lat)
      let lat_max := degrees (center_lat_rad + d_lat)
      let lon_min := degrees (center_lon_rad - d_lon)
      let lon_max := degrees (center_lon_rad + d_lon)
      some (lat_min, lat_max, lon_min, lon_max)

/-- Python `int(...)` on a float: truncation toward zero. -/
noncomputable def pyint (x : ℝ) : ℤ :=
  if x < 0 then ⌈x⌉ else ⌊x⌋

/-- `maplib.map_range`. -/
noncomputable def map_range (value in_min in_max out_min out_max : ℝ) : ℤ :=
  pyint (out_min + (value - in_min) / (in_max - in_min) * (out_max - out_min))

/-- `SKYPORTAL_DISPLAY.width`: the PyPortal's 320 (the repository's primary
target; `utils/build_map_tile.py` lists pyportal as 320×240). The theorems
below use only the positivity of these dimensions, so they carry over to the
480×320 Feather build unchanged. -/
def SKYPORTAL_DISPLAY_width : ℝ := 320

/-- `SKYPORTAL_DISPLAY.height` on the PyPortal. -/
def SKYPORTAL_DISPLAY_height : ℝ := 240

/-- The Web-Mercator vertical transform `ln(tan(π/4 + lat_rad/2))` used by
`calculate_pixel_position` (named here for the proofs; the source inlines it
three times). Python's `math.log` raises on a non-positive argument where
`Real.log` returns a junk value; the theorems below only use latitudes
strictly between -90 and 90 degrees, where the argument is positive. -/
noncomputable def merc (lat : ℝ) : ℝ :=
  Real.log (Real.tan (Real.pi / 4 + radians lat / 2))

/-- `maplib.calculate_pixel_position`. -/
noncomputable def calculate_pixel_position (lat lon : ℝ)
    (grid_bounds : ℝ × ℝ × ℝ × ℝ) : ℤ × ℤ :=
  let lat_min := grid_bounds.1
  let lat_max := grid_bounds.2.1
  let lon_min := grid_bounds.2.2.1
  let lon_max := grid_bounds.2.2.2
  let x := map_range lon lon_min lon_max 0 SKYPORTAL_DISPLAY_width
  let merc_lat := merc lat
  let merc_max := merc lat_max
  let merc_min := merc lat_min
  let y := map_range merc_lat merc_max merc_min 0 SKYPORTAL_DISPLAY_height
  (x, y)

/-! ## displaylib: `draw_aircraft` and `_closest_aircraft` -/

/-- `displaylib.dist` (source name `dist`; renamed here because Mathlib
exports `dist` for metric spaces): Euclidean distance between two pixel
coordinates. -/
noncomputable def dist_px (p q : ℤ × ℤ) : ℝ :=
  Real.sqrt (((p.1 - q.1 : ℤ) : ℝ) ^ 2 + ((p.2 - q.2 : ℤ) : ℝ) ^ 2)

/-- `self._aircraft_positions[k] = v` on the per-frame dict: an existing key is
updated in place (keeping its position in iteration order), a new key is
appended, mirroring CPython dict semantics. -/
def dictInsert (m : List ((ℤ × ℤ) × AircraftState)) (k : ℤ × ℤ) (v : AircraftState) :
    List ((ℤ × ℤ) × AircraftState) :=
  match m with
  | [] => [(k, v)]
  | (k0, v0) :: rest =>
    if k0 = k then (k, v) :: rest else (k0, v0) :: dictInsert rest k v

/-- `m[k]` lookup on the per-frame dict. -/
def dictLookup (m : List ((ℤ × ℤ) × AircraftState)) (k : ℤ × ℤ) : Option AircraftState :=
  match m with
  | [] => none
  | (k0, v0) :: rest => if k0 = k then some v0 else dictLookup rest k

/-- The pixel an aircraft is plotted at: `calculate_pixel_position(ap.lat,
ap.lon, grid_bounds)`. The loop only reaches this call when `is_plottable`
holds, so `lat`/`lon` are present; `getD 0` is the total-function reading of
the source's `# type: ignore` there. -/
noncomputable def aircraftPixel (grid_bounds : ℝ × ℝ × ℝ × ℝ) (ap : AircraftState) : ℤ × ℤ :=
  calculate_pixel_position ((ap.lat.getD 0 : ℚ) : ℝ) ((ap.lon.getD 0 : ℚ) : ℝ) grid_bounds

/-- `ap.geo_altitude_m is None or ap.geo_altitude_m < geo_altitude_threshold_m`. -/
def altBelowThreshold (geo_altitude_threshold_m : ℚ) (ap : AircraftState) : Bool :=
  match ap.geo_altitude_m with
  | none => true
  | some g => decide (g < geo_altitude_threshold_m)

/-- An aircraft the `draw_aircraft` loop actually plots: plottable, not
ground-filtered, and at or above the altitude threshold. -/
def drawPasses (skip_ground : Bool) (geo_altitude_threshold_m : ℚ) (ap : AircraftState) : Bool :=
  ap.is_plottable && !(skip_ground && ap.on_ground) && !altBelowThreshold geo_altitude_threshold_m ap

/-- An aircraft tallied as `n_unplottable` (the "missing data" count). -/
def missingDataCond (ap : AircraftState) : Bool :=
  !ap.is_plottable

/-- An aircraft tallied as `n_ground` (the "on ground" count): either
ground-filtered, or plottable-but-airborne with a missing or below-threshold
geometric altitude. -/
def groundCond (skip_ground : Bool) (geo_altitude_threshold_m : ℚ) (ap : AircraftState) : Bool :=
  ap.is_plottable &&
    (skip_ground && ap.on_ground ||
      (!(skip_ground && ap.on_ground) && altBelowThreshold geo_altitude_threshold_m ap))

/-- The state the `draw_aircraft` loop threads: the hit-test position cache,
the icons appended to `aircraft_display_group` (kept as pixel/aircraft pairs),
and the two skip tallies. -/
structure DrawState where
  aircraft_positions : List ((ℤ × ℤ) × AircraftState)
  drawn : List ((ℤ × ℤ) × AircraftState)
  n_unplottable : ℕ
  n_ground : ℕ
  deriving Inhabited

/-- One iteration of the `for ap in aircraft` loop of
`SkyPortalUI.draw_aircraft`. -/
noncomputable def drawStep (skip_ground : Bool) (geo_altitude_threshold_m : ℚ)
    (grid_bounds : ℝ × ℝ × ℝ × ℝ) (st : DrawState) (ap : AircraftState) : DrawState :=
  if !ap.is_plottable then
    { st with n_unplottable := st.n_unplottable + 1 }
  else if skip_ground && ap.on_ground then
    { st with n_ground := st.n_ground + 1 }
  else if altBelowThreshold geo_altitude_threshold_m ap then
    { st with n_ground := st.n_ground + 1 }
  else
    let pos := aircraftPixel grid_bounds ap
    { st with
      drawn := st.drawn ++ [(pos, ap)]
      aircraft_positions := dictInsert st.aircraft_positions pos ap }

/-- `SkyPortalUI.draw_aircraft`: the method first clears the position cache
and the display group, then runs the loop over the provided aircraft. -/
noncomputable def draw_aircraft (aircraft : List AircraftState) (skip_ground : Bool)
    (geo_altitude_threshold_m : ℚ) (grid_bounds : ℝ × ℝ × ℝ × ℝ) : DrawState :=
  aircraft.foldl (drawStep skip_ground geo_altitude_threshold_m grid_bounds)
    { aircraft_positions := [], drawn := [], n_unplottable := 0, n_ground := 0 }

/-- `SkyPortalUI._closest_aircraft`: on a non-empty cache, sort
(state, distance) pairs by distance — Python's stable `sorted` — and compare
`dists[0]` against the threshold. -/
noncomputable def _closest_aircraft (aircraft_positions : List ((ℤ × ℤ) × AircraftState))
    (touch_coord : ℤ × ℤ) (threshold_px : ℝ) : Option AircraftState :=
  match aircraft_positions with
  | [] => none
  | _ :: _ =>
    let dists := ((aircraft_positions.map fun p => (p.2, dist_px p.1 touch_coord)).mergeSort
      (fun a b => decide (a.2 ≤ b.2)))
    let best := dists.headI
    if threshold_px < best.2 then none else some best.1

/-! ## Concrete payloads used by the claim theorems -/

/-- An ordinary airborne ADSB.lol record: `alt_baro = 1000` (feet). -/
def adsbAirborneRec : Record :=
  [("hex", .str "a1b2c3"), ("flight", .str "DAL100"), ("lat", .num 42.41),
   ("lon", .num (-71.17)), ("gs", .num 100), ("alt_baro", .num 1000),
   ("track", .num 90)]

/-- An ADSB.lol record on the ground: `alt_baro = "ground"`. -/
def adsbGroundRec : Record :=
  [("hex", .str "b2c3d4"), ("flight", .str "GND1"), ("lat", .num 42.0),
   ("lon", .num (-71.0)), ("gs", .num 5), ("alt_baro", .str "ground"),
   ("true_heading", .num 45)]

/-- An OpenSky state vector carrying the on-ground sentinel: `baro_altitude`
(field 7) is null and `on_ground` (field 8) is true. -/
def openskyGroundVec : List JVal :=
  [.str "abc123", .str "SWA111  ", .str "US", .num 1700000000, .num 1700000005,
   .num (-71.1), .num 42.4, .null, .bool true, .num 3, .num 180, .null, .null,
   .null, .str "1200", .bool false, .num 0, .num 2]

/-- An ADSB.lol record missing the required `"hex"` field (but carrying
`alt_baro`, which the constructor reads first). -/
def adsbMalformedRec : Record :=
  [("flight", .str "BAD1"), ("lat", .num 41.9), ("lon", .num (-70.9)),
   ("gs", .num 180), ("alt_baro", .num 9000), ("track", .num 120)]

/-- A second ordinary airborne ADSB.lol record. -/
def adsbAirborneRec2 : Record :=
  [("hex", .str "c3d4e5"), ("flight", .str "SWA2"), ("lat", .num 42.6),
   ("lon", .num (-71.3)), ("gs", .num 210), ("alt_baro", .num 15000),
   ("track", .num 310)]

/-- A batch of 3 records of which exactly the middle one is malformed. -/
def adsbBatchPayload : Payload Record :=
  { time := 1700000000000, ac := [adsbAirborneRec, adsbMalformedRec, adsbAirborneRec2] }

/-- A concrete handler state holding one aircraft (so `can_draw` is `true`). -/
def handlerW : APIHandlerState :=
  { aircraft := [default], api_time := 12 }

/-- An ADSB.lol record whose `flight` field is all whitespace. -/
def adsbWhitespaceRec : Record :=
  [("hex", .str "d4e5f6"), ("flight", .str "   "), ("lat", .num 40),
   ("lon", .num (-70)), ("gs", .num 50), ("alt_baro", .num 2000), ("track", .num 10)]

/-- An ADSB.lol record whose `flight` field carries padding whitespace. -/
def adsbPaddedRec : Record :=
  [("hex", .str "e6f7a8"), ("flight", .str " SWA1234 "), ("lat", .num 39),
   ("lon", .num (-75)), ("gs", .num 300), ("alt_baro", .num 30000), ("track", .num 200)]

/-- The state `from_adsblol` builds for `adsbPaddedRec`. -/
def adsbPaddedState : AircraftState :=
  { icao := "e6f7a8", callsign := some " SWA1234 ", lat := some 39, lon := some (-75),
    track := some 200, velocity_mps := some (300 * 0.5144), on_ground := false,
    baro_altitude_m := some ((0 : ℚ) * 0.3048), geo_altitude_m := none,
    vertical_rate_mps := none, aircraft_category := AircraftCategory.getattr "NO_INFO" }

/-- A plottable, airborne aircraft with no geometric altitude. -/
def apAltitudeSkip : AircraftState :=
  { icao := "abc900", callsign := none, lat := some 42, lon := some (-71), track := some 90,
    velocity_mps := some 100, on_ground := false, baro_altitude_m := some 300,
    geo_altitude_m := none, vertical_rate_mps := none, aircraft_category := 0 }

/-- C1 (code bug): evaluating `AircraftState.from_adsblol` at an airborne
record with `alt_baro = 1000` ft. The walrus-operator precedence slip binds
`baro_alt` to the boolean `alt_baro == "ground"`, so `baro_alt *= 0.3048`
multiplies `False` and the state gets `baro_altitude_m = 0.0` instead of the
intended `1000 × 0.3048 = 304.8` m, contradicting the source's own
`# Provided in ft` conversion comment and the spec. The sentinel branches the
claim also describes do behave as claimed: the `"ground"` ADSB.lol record and
the OpenSky sentinel vector both normalize to `on_ground = true`,
`baro_altitude_m = none`. -/
theorem from_adsblol_baro_altitude_bug :
    (AircraftState.from_adsblol adsbAirborneRec).map
        (fun s => (s.baro_altitude_m, s.on_ground)) = .ok (some 0, false) ∧
      (1000 : ℚ) * 0.3048 = 304.8 ∧ (304.8 : ℚ) ≠ 0 ∧
      (AircraftState.from_adsblol adsbGroundRec).map
        (fun s => (s.baro_altitude_m, s.on_ground)) = .ok (none, true) ∧
      (AircraftState.from_opensky openskyGroundVec).map
        (fun s => (s.baro_altitude_m, s.on_ground)) = .ok (none, true) := by
  refine ⟨?_, by norm_num, by norm_num, by rfl, by rfl⟩
  have h : AircraftState.from_adsblol adsbAirborneRec =
      .ok { icao := "a1b2c3", callsign := some "DAL100", lat := some 42.41,
            lon := some (-71.17), track := some 90, velocity_mps := some (100 * 0.5144),
            on_ground := false, baro_altitude_m := some ((0 : ℚ) * 0.3048),
            geo_altitude_m := none, vertical_rate_mps := none,
            aircraft_category := AircraftCategory.getattr "NO_INFO" } := rfl
  rw [h]
  norm_num [Except.map]

/-- C2 (counterexample): on a batch of 3 aircraft records whose middle record
lacks the required `"hex"` key, `_parse_api_response` (ADSB.lol instantiation)
does not return a 2-element list — the `KeyError` escapes and aborts the whole
parse. -/
theorem parse_api_response_malformed_aborts :
    parse_api_response_adsblol true adsbBatchPayload = .error (.keyError "hex") := by
  rfl

/-- If `parseStates` succeeds, every record in the batch converted
successfully. -/
theorem parseStates_ok_mem {α : Type} (conv : α → Except PyErr AircraftState)
    (sg : Bool) :
    ∀ (l : List α) (out : List AircraftState), parseStates conv sg l = .ok out →
      ∀ sv ∈ l, ∃ s, conv sv = .ok s := by
  intro l
  induction l with
  | nil => intro out _ sv hm; cases hm
  | cons a rest ih =>
    intro out h sv hm
    rw [parseStates] at h
    rcases List.mem_cons.mp hm with rfl | hrest
    · split at h
      · cases h
      · next st hconv => exact ⟨st, hconv⟩
    · split at h
      · cases h
      · next st hconv =>
        split at h
        · exact ih out h sv hrest
        · split at h
          · cases h
          · next states hrec => exact ih states hrec sv hrest

/-- C2 (amended): a record that fails to normalize makes the whole
`_parse_api_response` fail — the single malformed record aborts the batch
rather than being skipped. -/
theorem parse_api_response_fails_on_malformed {α : Type}
    (conv : α → Except PyErr AircraftState) (tconv : ℚ → ℚ) (sg : Bool)
    (p : Payload α) (hbad : ∃ sv ∈ p.ac, ∀ s, conv sv ≠ .ok s) :
    (_parse_api_response conv tconv sg p).isOk = false := by
  rcases hbad with ⟨sv, hmem, hfail⟩
  rw [_parse_api_response]
  rcases hrec : parseStates conv sg p.ac with e | states
  · rfl
  · rcases parseStates_ok_mem conv sg p.ac states hrec sv hmem with ⟨s, hs⟩
    exact absurd hs (hfail s)

/-- C2 witness: the amended theorem applied to the concrete 3-record batch. -/
theorem parse_api_response_fails_on_malformed_witness :
    (_parse_api_response AircraftState.from_adsblol (fun t => t / 1000) true
      adsbBatchPayload).isOk = false :=
  parse_api_response_fails_on_malformed AircraftState.from_adsblol
    (fun t => t / 1000) true adsbBatchPayload
    ⟨adsbMalformedRec, List.Mem.tail _ (List.Mem.head _), fun s h => by
      rw [show AircraftState.from_adsblol adsbMalformedRec
        = .error (.keyError "hex") from by rfl] at h; cases h⟩

/-- C4: when the fetch raises (timeout, bad status, empty payload) or the
parse step fails, `update` leaves `aircraft` and `api_time` exactly as they
were — the tuple assignment runs only after `_parse_api_response` returns —
and `can_draw` afterwards reflects the prior aircraft set. -/
theorem update_keeps_state_on_failure {α : Type}
    (conv : α → Except PyErr AircraftState) (tconv : ℚ → ℚ) (sg : Bool)
    (h : APIHandlerState) (fetch : FetchOutcome α)
    (hfail : (∀ p, fetch ≠ .ok p) ∨
      ∃ p e, fetch = .ok p ∧ _parse_api_response conv tconv sg p = .error e) :
    (update conv tconv sg h fetch).1.aircraft = h.aircraft ∧
      (update conv tconv sg h fetch).1.api_time = h.api_time ∧
      can_draw (update conv tconv sg h fetch).1 = can_draw h ∧
      (update conv tconv sg h fetch).2 ≠ .success := by
  rcases hfail with hne | ⟨p, e, rfl, hparse⟩
  · cases fetch with
    | ok p => exact absurd rfl (hne p)
    | badStatus => exact ⟨rfl, rfl, rfl, by rw [update]; exact fun hc => by cases hc⟩
    | emptyResponse => exact ⟨rfl, rfl, rfl, by rw [update]; exact fun hc => by cases hc⟩
    | outOfRetries => exact ⟨rfl, rfl, rfl, by rw [update]; exact fun hc => by cases hc⟩
    | timedOut => exact ⟨rfl, rfl, rfl, by rw [update]; exact fun hc => by cases hc⟩
  · have hu : update conv tconv sg h (.ok p) = (h, .uncaught e) := by
      rw [update, hparse]
    rw [hu]
    exact ⟨rfl, rfl, rfl, fun hc => by cases hc⟩

/-- C4 witness: a timed-out fetch against a handler holding one aircraft. -/
theorem update_keeps_state_on_failure_witness :
    (update AircraftState.from_adsblol (fun t => t / 1000) true handlerW
        (FetchOutcome.timedOut : FetchOutcome Record)).1.aircraft = handlerW.aircraft ∧
      (update AircraftState.from_adsblol (fun t => t / 1000) true handlerW
        (FetchOutcome.timedOut : FetchOutcome Record)).1.api_time = handlerW.api_time ∧
      can_draw (update AircraftState.from_adsblol (fun t => t / 1000) true handlerW
        (FetchOutcome.timedOut : FetchOutcome Record)).1 = can_draw handlerW ∧
      (update AircraftState.from_adsblol (fun t => t / 1000) true handlerW
        (FetchOutcome.timedOut : FetchOutcome Record)).2 ≠ .success :=
  update_keeps_state_on_failure AircraftState.from_adsblol (fun t => t / 1000) true
    handlerW FetchOutcome.timedOut (Or.inl fun p hp => by cases hp)

/-- C8 (counterexample): `from_adsblol` performs no trimming and does not map
an all-whitespace callsign to `None`: the `"   "` flight string is stored
verbatim, where the claim requires `None`. -/
theorem from_adsblol_callsign_not_trimmed :
    (AircraftState.from_adsblol adsbWhitespaceRec).map (fun s => s.callsign)
        = .ok (some "   ") ∧ pyStrip "   " = "" ∧ some ("   " : String) ≠ none := by
  refine ⟨rfl, rfl, fun hc => by cases hc⟩

/-- C8 (amended): what the constructors actually do with callsigns.
`from_adsblol` takes the `flight` field, falling back to the registration
field `r` when `flight` is missing or null, and stores the string verbatim —
no whitespace trimming, no empty-string-to-`None` normalization. Only
`from_opensky` strips whitespace and stores an empty result as absent (it has
no registration fallback: the positional vector's field 1 is its only
callsign source). -/
theorem callsign_normalization_spec :
    (∀ (sv : Record) (s : AircraftState) (c : String),
      AircraftState.from_adsblol sv = .ok s → sv.pyGet "flight" = some (.str c) →
        s.callsign = some c) ∧
    (∀ (sv : Record) (s : AircraftState) (c : String),
      AircraftState.from_adsblol sv = .ok s → sv.pyGet "flight" = none →
        sv.pyGet "r" = some (.str c) → s.callsign = some c) ∧
    (∀ (sv : List JVal) (s : AircraftState) (c : String),
      AircraftState.from_opensky sv = .ok s → sv[1]? = some (.str c) →
        s.callsign = if pyStrip c = "" then none else some (pyStrip c)) := by
  refine ⟨?_, ?_, ?_⟩
  · intro sv s c h hflight
    rw [AircraftState.from_adsblol] at h
    simp only [bind, Except.bind, pure, Except.pure, hflight, JVal.asStr] at h
    repeat' split at h
    all_goals (try cases h)
    all_goals rfl
  · intro sv s c h hflight hr
    rw [AircraftState.from_adsblol] at h
    simp only [bind, Except.bind, pure, Except.pure, hflight, hr, JVal.asStr] at h
    repeat' split at h
    all_goals (try cases h)
    all_goals rfl
  · intro sv s c h h1
    have hidx : svIndex sv 1 = .ok (.str c) := by rw [svIndex, h1]
    rw [AircraftState.from_opensky] at h
    simp only [bind, Except.bind, pure, Except.pure, hidx] at h
    repeat' split at h
    all_goals (try cases h)
    all_goals (rename_i hcond; simp [hcond])

/-- C8 witness: the amended callsign theorem applied to the concrete padded
record — the whitespace-padded `flight` string is stored verbatim. -/
theorem callsign_normalization_spec_witness :
    AircraftState.from_adsblol adsbPaddedRec = .ok adsbPaddedState ∧
      adsbPaddedState.callsign = some " SWA1234 " :=
  ⟨rfl, callsign_normalization_spec.1 adsbPaddedRec adsbPaddedState " SWA1234 " rfl rfl⟩

/-- Evaluating `build_bounding_box` at width 0 (center at the origin): every
guard passes and the returned box is the degenerate point box. -/
theorem build_bounding_box_at_zero_width :
    build_bounding_box 0 0 0 (4 / 3) = some (0, 0, 0, 0) := by
  simp only [build_bounding_box]
  norm_num [radians, degrees, Real.cos_zero, Real.sin_zero, Real.arcsin_zero]

/-- C3 (counterexample): with `grid_width_mi = 0` (`≤ 0`), `build_bounding_box`
does not fail with any configuration error — it returns normally, and the box
it returns has `lat_min = lat_max` and `lon_min = lon_max` (zero area). -/
theorem build_bounding_box_zero_width_zero_area :
    build_bounding_box 0 0 0 (4 / 3) = some (0, 0, 0, 0) :=
  build_bounding_box_at_zero_width

/-- C3 (amended): `build_bounding_box` performs no width validation. For
`grid_width_mi ≤ 0` whatever box it returns is degenerate on the latitude
axis: `lat_max ≤ lat_min` (equal at width 0, inverted below). -/
theorem build_bounding_box_nonpos_width_degenerate
    (map_center_lat map_center_lon grid_width_mi aspect_ratio : ℝ)
    (box : ℝ × ℝ × ℝ × ℝ) (hw : grid_width_mi ≤ 0)
    (hbox : build_bounding_box map_center_lat map_center_lon grid_width_mi aspect_ratio
      = some box) :
    box.2.1 ≤ box.1 := by
  have hπ := Real.pi_pos
  simp only [build_bounding_box] at hbox
  split at hbox
  · cases hbox
  · split at hbox
    · cases hbox
    · injection hbox with h2
      subst h2
      simp only [degrees]
      rw [div_le_div_iff hπ hπ]
      have hd : grid_width_mi * 1.6 / 6378.1 ≤ 0 := by
        apply div_nonpos_of_nonpos_of_nonneg _ (by norm_num)
        nlinarith
      nlinarith [mul_nonneg (neg_nonneg.mpr hd) hπ.le]

/-- C3 witness: the amended theorem applied at width 0. -/
theorem build_bounding_box_nonpos_width_degenerate_witness :
    (((0 : ℝ), (0 : ℝ), (0 : ℝ), (0 : ℝ))).2.1 ≤ (((0 : ℝ), (0 : ℝ), (0 : ℝ), (0 : ℝ))).1 :=
  build_bounding_box_nonpos_width_degenerate 0 0 0 (4 / 3) (0, 0, 0, 0) le_rfl
    build_bounding_box_at_zero_width

/-- C5 (counterexample): at `center_lat = 89`, `grid_width_mi = 100` and
aspect ratio 4/3 — a valid input under the claim's hypotheses — the argument
of `math.asin` is `sin(160/6378.1)/cos(radians 89) > 1`, so the call raises
`ValueError` and `build_bounding_box` does not return a box at all. -/
theorem build_bounding_box_asin_domain_error :
    build_bounding_box 89 0 100 (4 / 3) = none := by
  have hπ := Real.pi_pos
  have h315 := Real.pi_lt_315
  have h3 := Real.pi_gt_three
  have hcos : Real.cos (radians 89) = Real.sin (Real.pi / 180) := by
    rw [radians, ← Real.sin_pi_div_two_sub]
    congr 1
    ring
  have hsinpos : 0 < Real.sin (Real.pi / 180) :=
    Real.sin_pos_of_pos_of_lt_pi (by positivity) (by nlinarith)
  have hmono : Real.sin (Real.pi / 180) < Real.sin (100 * 1.6 / 6378.1) := by
    apply Real.strictMonoOn_sin
    · constructor
      · nlinarith
      · nlinarith
    · constructor
      · norm_num
        nlinarith
      · norm_num
        nlinarith
    · nlinarith
  have hcospos : 0 < Real.cos (radians 89) := by rw [hcos]; exact hsinpos
  have hratio : 1 < Real.sin (100 * 1.6 / 6378.1) / Real.cos (radians 89) := by
    rw [hcos, lt_div_iff hsinpos, one_mul]
    exact hmono
  simp only [build_bounding_box]
  rw [if_neg (ne_of_gt hcospos), if_pos (lt_of_lt_of_le hratio (le_abs_self _))]

/-- C5 (amended): for `|center_lat| < 90`, any `center_lon`, width `> 0` and
aspect ratio `> 0`, *provided the angular half-width `w·1.6/6378.1` does not
exceed the angular distance `π/2 − |center_lat_rad|` from the center latitude
to the pole* (otherwise `math.asin` can raise, see the counterexample),
`build_bounding_box` returns normally with `lat_min < lat_max` and
`lon_min < lon_max`. -/
theorem build_bounding_box_valid (map_center_lat map_center_lon grid_width_mi aspect_ratio : ℝ)
    (hw : 0 < grid_width_mi) (ha : 0 < aspect_ratio) (hlat : |map_center_lat| < 90)
    (hang : grid_width_mi * 1.6 / 6378.1 ≤ Real.pi / 2 - |radians map_center_lat|) :
    ∃ lat_min lat_max lon_min lon_max,
      build_bounding_box map_center_lat map_center_lon grid_width_mi aspect_ratio
        = some (lat_min, lat_max, lon_min, lon_max) ∧
      lat_min < lat_max ∧ lon_min < lon_max := by
  have hπ := Real.pi_pos
  have habs : |radians map_center_lat| = |map_center_lat| * Real.pi / 180 := by
    rw [radians, abs_div, abs_mul, abs_of_pos hπ, abs_of_pos (by norm_num : (0:ℝ) < 180)]
  have hlatrad : |radians map_center_lat| < Real.pi / 2 := by
    rw [habs]
    nlinarith [abs_nonneg map_center_lat]
  have hcospos : 0 < Real.cos (radians map_center_lat) := by
    rcases abs_lt.mp hlatrad with ⟨h1, h2⟩
    exact Real.cos_pos_of_mem_Ioo ⟨h1, h2⟩
  have hangpos : 0 < grid_width_mi * 1.6 / 6378.1 := by positivity
  have hanghalf : grid_width_mi * 1.6 / 6378.1 ≤ Real.pi / 2 := by
    nlinarith [abs_nonneg (radians map_center_lat)]
  have hsinpos : 0 < Real.sin (grid_width_mi * 1.6 / 6378.1) :=
    Real.sin_pos_of_pos_of_lt_pi hangpos (by nlinarith)
  have hsinle : Real.sin (grid_width_mi * 1.6 / 6378.1) ≤ Real.cos (radians map_center_lat) := by
    have hm : Real.sin (grid_width_mi * 1.6 / 6378.1)
        ≤ Real.sin (Real.pi / 2 - |radians map_center_lat|) := by
      apply Real.strictMonoOn_sin.monotoneOn
      · constructor
        · nlinarith
        · nlinarith
      · constructor
        · nlinarith [abs_nonneg (radians map_center_lat)]
        · nlinarith [abs_nonneg (radians map_center_lat)]
      · nlinarith
    rw [Real.sin_pi_div_two_sub, Real.cos_abs] at hm
    exact hm
  have hratiopos : 0 < Real.sin (grid_width_mi * 1.6 / 6378.1)
      / Real.cos (radians map_center_lat) := div_pos hsinpos hcospos
  have hratiole : Real.sin (grid_width_mi * 1.6 / 6378.1)
      / Real.cos (radians map_center_lat) ≤ 1 := (div_le_one hcospos).mpr hsinle
  have hnl : ¬(1 < |Real.sin (grid_width_mi * 1.6 / 6378.1)
      / Real.cos (radians map_center_lat)|) := by
    rw [abs_of_pos hratiopos]
    exact not_lt.mpr hratiole
  have harc : 0 < Real.arcsin (Real.sin (grid_width_mi * 1.6 / 6378.1)
      / Real.cos (radians map_center_lat)) * aspect_ratio :=
    mul_pos (Real.arcsin_pos.mpr hratiopos) ha
  have hbb : build_bounding_box map_center_lat map_center_lon grid_width_mi aspect_ratio
      = some (degrees (radians map_center_lat - grid_width_mi * 1.6 / 6378.1),
              degrees (radians map_center_lat + grid_width_mi * 1.6 / 6378.1),
              degrees (radians map_center_lon -
                Real.arcsin (Real.sin (grid_width_mi * 1.6 / 6378.1) /
                  Real.cos (radians map_center_lat)) * aspect_ratio),
              degrees (radians map_center_lon +
                Real.arcsin (Real.sin (grid_width_mi * 1.6 / 6378.1) /
                  Real.cos (radians map_center_lat)) * aspect_ratio)) := by
    simp only [build_bounding_box]
    rw [if_neg (ne_of_gt hcospos), if_neg hnl]
  refine ⟨_, _, _, _, hbb, ?_, ?_⟩
  · simp only [degrees]
    rw [div_lt_div_iff hπ hπ]
    nlinarith [mul_pos hangpos hπ]
  · simp only [degrees]
    rw [div_lt_div_iff hπ hπ]
    nlinarith [mul_pos harc hπ]

/-- C5 witness: the amended theorem at the configured defaults
(`center (0,0)`, width 15 mi, aspect 4/3). -/
theorem build_bounding_box_valid_witness :
    ∃ lat_min lat_max lon_min lon_max,
      build_bounding_box 0 0 15 (4 / 3) = some (lat_min, lat_max, lon_min, lon_max) ∧
      lat_min < lat_max ∧ lon_min < lon_max :=
  build_bounding_box_valid 0 0 15 (4 / 3) (by norm_num) (by norm_num) (by norm_num)
    (by rw [radians]; norm_num; nlinarith [Real.pi_gt_three])

/-- Python `int()` truncation toward zero is monotone. -/
theorem pyint_mono {x y : ℝ} (h : x ≤ y) : pyint x ≤ pyint y := by
  rw [pyint, pyint]
  rcases lt_or_le x 0 with hx | hx
  · rcases lt_or_le y 0 with hy | hy
    · rw [if_pos hx, if_pos hy]
      exact Int.ceil_le_ceil h
    · rw [if_pos hx, if_neg (not_lt.mpr hy)]
      refine le_trans (Int.ceil_le.mpr ?_) (Int.floor_nonneg.mpr hy)
      exact_mod_cast hx.le
  · rw [if_neg (not_lt.mpr hx), if_neg (not_lt.mpr (le_trans hx h))]
    exact Int.floor_le_floor h

/-- The Web-Mercator vertical transform is strictly increasing on
latitudes strictly between -90 and 90 degrees. -/
theorem merc_strict_mono {a b : ℝ} (ha : -90 < a) (hb : b < 90) (hab : a < b) :
    merc a < merc b := by
  have hπ := Real.pi_pos
  have h1 : 0 < Real.pi / 4 + radians a / 2 := by rw [radians]; nlinarith
  have h2 : Real.pi / 4 + radians a / 2 < Real.pi / 2 := by rw [radians]; nlinarith
  have h4 : Real.pi / 4 + radians b / 2 < Real.pi / 2 := by rw [radians]; nlinarith
  have h3 : 0 < Real.pi / 4 + radians b / 2 := by rw [radians]; nlinarith
  have htan : Real.tan (Real.pi / 4 + radians a / 2) < Real.tan (Real.pi / 4 + radians b / 2) := by
    apply Real.strictMonoOn_tan ⟨by nlinarith, h2⟩ ⟨by nlinarith, h4⟩
    rw [radians, radians]
    nlinarith
  exact Real.log_lt_log (Real.tan_pos_of_pos_of_lt_pi_div_two h1 h2) htan

/-- Non-strict version of `merc_strict_mono`. -/
theorem merc_mono {a b : ℝ} (ha : -90 < a) (hb : b < 90) (hab : a ≤ b) : merc a ≤ merc b := by
  rcases eq_or_lt_of_le hab with rfl | h
  · exact le_refl _
  · exact (merc_strict_mono ha hb h).le

/-- C6: within a geographically valid bounding box (`lat_min < lat_max` inside
(-90, 90), `lon_min < lon_max`) the projection is monotone: for two points in
the box, same latitude and `lon1 ≤ lon2` gives `x1 ≤ x2`, and same longitude
and `lat1 ≤ lat2` gives `y2 ≤ y1` (increasing latitude never increases y). -/
theorem calculate_pixel_position_monotone
    (lat_min lat_max lon_min lon_max lat1 lon1 lat2 lon2 : ℝ)
    (hlo : -90 < lat_min) (hhi : lat_max < 90)
    (hlat : lat_min < lat_max) (hlon : lon_min < lon_max)
    (h1a : lat_min ≤ lat1) (h1b : lat1 ≤ lat_max)
    (h1c : lon_min ≤ lon1) (h1d : lon1 ≤ lon_max)
    (h2a : lat_min ≤ lat2) (h2b : lat2 ≤ lat_max)
    (h2c : lon_min ≤ lon2) (h2d : lon2 ≤ lon_max) :
    (lat1 = lat2 → lon1 ≤ lon2 →
      (calculate_pixel_position lat1 lon1 (lat_min, lat_max, lon_min, lon_max)).1
        ≤ (calculate_pixel_position lat2 lon2 (lat_min, lat_max, lon_min, lon_max)).1) ∧
    (lon1 = lon2 → lat1 ≤ lat2 →
      (calculate_pixel_position lat2 lon2 (lat_min, lat_max, lon_min, lon_max)).2
        ≤ (calculate_pixel_position lat1 lon1 (lat_min, lat_max, lon_min, lon_max)).2) := by
  constructor
  · intro _ hlon12
    simp only [calculate_pixel_position, map_range, SKYPORTAL_DISPLAY_width]
    apply pyint_mono
    have hD : 0 < lon_max - lon_min := sub_pos.mpr hlon
    rw [div_eq_mul_inv, div_eq_mul_inv]
    have hinv : 0 ≤ (lon_max - lon_min)⁻¹ := (inv_pos.mpr hD).le
    nlinarith [mul_nonneg (sub_nonneg.mpr hlon12) hinv]
  · intro _ hlat12
    simp only [calculate_pixel_position, map_range, SKYPORTAL_DISPLAY_height]
    apply pyint_mono
    have hm12 : merc lat1 ≤ merc lat2 := merc_mono (by linarith) (by linarith) hlat12
    have hmm : merc lat_min < merc lat_max := merc_strict_mono hlo hhi hlat
    have hD : merc lat_min - merc lat_max < 0 := by linarith
    rw [div_eq_mul_inv, div_eq_mul_inv]
    have hinv : (merc lat_min - merc lat_max)⁻¹ < 0 := inv_lt_zero.mpr hD
    nlinarith [mul_nonneg (sub_nonneg.mpr hm12) (neg_nonneg.mpr hinv.le)]

/-- C6 witness: monotonicity at concrete points of the box
`(-10, 10, -20, 20)`: same latitude with `-5 ≤ 5` in longitude, and same
longitude with `-5 ≤ 5` in latitude. -/
theorem calculate_pixel_position_monotone_witness :
    (calculate_pixel_position 0 (-5) ((-10 : ℝ), 10, -20, 20)).1
        ≤ (calculate_pixel_position 0 5 ((-10 : ℝ), 10, -20, 20)).1 ∧
      (calculate_pixel_position 5 3 ((-10 : ℝ), 10, -20, 20)).2
        ≤ (calculate_pixel_position (-5) 3 ((-10 : ℝ), 10, -20, 20)).2 :=
  ⟨(calculate_pixel_position_monotone (-10) 10 (-20) 20 0 (-5) 0 5 (by norm_num) (by norm_num)
      (by norm_num) (by norm_num) (by norm_num) (by norm_num) (by norm_num) (by norm_num)
      (by norm_num) (by norm_num) (by norm_num) (by norm_num)).1 rfl (by norm_num),
   (calculate_pixel_position_monotone (-10) 10 (-20) 20 (-5) 3 5 3 (by norm_num) (by norm_num)
      (by norm_num) (by norm_num) (by norm_num) (by norm_num) (by norm_num) (by norm_num)
      (by norm_num) (by norm_num) (by norm_num) (by norm_num)).2 rfl (by norm_num)⟩

/-- On a non-empty cache, `_closest_aircraft` picks an entry of minimal
Euclidean distance to the touch point and compares that distance against the
threshold. -/
theorem closest_aircraft_spec (cache : List ((ℤ × ℤ) × AircraftState))
    (touch : ℤ × ℤ) (thr : ℝ) (hne : cache ≠ []) :
    ∃ p, p ∈ cache ∧ (∀ q ∈ cache, dist_px p.1 touch ≤ dist_px q.1 touch) ∧
      _closest_aircraft cache touch thr
        = if thr < dist_px p.1 touch then none else some p.2 := by
  match cache with
  | [] => exact absurd rfl hne
  | c :: cs =>
    have htrans : ∀ (a b d : AircraftState × ℝ),
        (fun a b => decide (a.2 ≤ b.2)) a b = true → (fun a b => decide (a.2 ≤ b.2)) b d = true →
        (fun a b => decide (a.2 ≤ b.2)) a d = true := by
      intro a b d hab hbd
      simp only [decide_eq_true_eq] at hab hbd ⊢
      exact le_trans hab hbd
    have htotal : ∀ (a b : AircraftState × ℝ),
        ((fun a b => decide (a.2 ≤ b.2)) a b || (fun a b => decide (a.2 ≤ b.2)) b a) = true := by
      intro a b
      simp only [Bool.or_eq_true, decide_eq_true_eq]
      exact le_total _ _
    have hpair := List.sorted_mergeSort htrans htotal
      ((c :: cs).map fun p => (p.2, dist_px p.1 touch))
    have hperm := List.mergeSort_perm ((c :: cs).map fun p => (p.2, dist_px p.1 touch))
      (fun a b => decide (a.2 ≤ b.2))
    have hlen : ((c :: cs).map fun p => (p.2, dist_px p.1 touch)).mergeSort
        (fun a b => decide (a.2 ≤ b.2)) ≠ [] := by
      intro hnil
      have hl := hperm.length_eq
      rw [hnil] at hl
      simp at hl
    obtain ⟨b, bs, hsort⟩ := List.exists_cons_of_ne_nil hlen
    have hpair2 : List.Pairwise (fun a b => (fun a b => decide (a.2 ≤ b.2)) a b = true) (b :: bs) := by
      rw [← hsort]
      exact hpair
    have hble : ∀ x ∈ (b :: bs), b.2 ≤ x.2 := by
      intro x hx
      rcases List.mem_cons.mp hx with rfl | hx
      · exact le_refl _
      · have hx2 := (List.pairwise_cons.mp hpair2).1 x hx
        simpa only [decide_eq_true_eq] using hx2
    have hbmem : b ∈ (c :: cs).map fun p => (p.2, dist_px p.1 touch) := by
      have hm : b ∈ (b :: bs) := List.mem_cons_self _ _
      rw [← hsort] at hm
      exact List.mem_mergeSort.mp hm
    obtain ⟨p, hpmem, hpeq⟩ := List.mem_map.mp hbmem
    refine ⟨p, hpmem, ?_, ?_⟩
    · intro q hq
      have hq2 : (q.2, dist_px q.1 touch) ∈ (b :: bs) := by
        rw [← hsort]
        exact List.mem_mergeSort.mpr (List.mem_map.mpr ⟨q, hq, rfl⟩)
      have hle := hble _ hq2
      calc dist_px p.1 touch = b.2 := by rw [← hpeq]
        _ ≤ dist_px q.1 touch := hle
    · simp only [_closest_aircraft]
      rw [hsort]
      simp only [List.headI]
      rw [← hpeq]

/-- C7: on an empty cache the nearest-aircraft query returns `None` without
error; on a non-empty cache it returns an aircraft of minimal pixel distance
to the touch point when that minimal distance is within the threshold, and
`None` when the minimal distance exceeds it. -/
theorem closest_aircraft_claim (cache : List ((ℤ × ℤ) × AircraftState))
    (touch : ℤ × ℤ) (thr : ℝ) :
    (cache = [] → _closest_aircraft cache touch thr = none) ∧
    (cache ≠ [] → ∃ p, p ∈ cache ∧ (∀ q ∈ cache, dist_px p.1 touch ≤ dist_px q.1 touch) ∧
      _closest_aircraft cache touch thr
        = if thr < dist_px p.1 touch then none else some p.2) := by
  constructor
  · rintro rfl
    rfl
  · exact closest_aircraft_spec cache touch thr

/-- One loop step changes `n_ground` exactly when `groundCond` holds. -/
theorem drawStep_n_ground (sg : Bool) (thr : ℚ) (gb : ℝ × ℝ × ℝ × ℝ)
    (s : DrawState) (ap : AircraftState) :
    (drawStep sg thr gb s ap).n_ground
      = s.n_ground + (if groundCond sg thr ap then 1 else 0) := by
  cases hp : ap.is_plottable <;> cases hg : (sg && ap.on_ground) <;>
    cases hb : altBelowThreshold thr ap <;>
    simp [drawStep, groundCond, hp, hg, hb]

/-- One loop step changes `n_unplottable` exactly when `missingDataCond` holds. -/
theorem drawStep_n_unplottable (sg : Bool) (thr : ℚ) (gb : ℝ × ℝ × ℝ × ℝ)
    (s : DrawState) (ap : AircraftState) :
    (drawStep sg thr gb s ap).n_unplottable
      = s.n_unplottable + (if missingDataCond ap then 1 else 0) := by
  cases hp : ap.is_plottable <;> cases hg : (sg && ap.on_ground) <;>
    cases hb : altBelowThreshold thr ap <;>
    simp [drawStep, missingDataCond, hp, hg, hb]

/-- One loop step touches the position cache exactly when `drawPasses` holds. -/
theorem drawStep_positions (sg : Bool) (thr : ℚ) (gb : ℝ × ℝ × ℝ × ℝ)
    (s : DrawState) (ap : AircraftState) :
    (drawStep sg thr gb s ap).aircraft_positions
      = if drawPasses sg thr ap then
          dictInsert s.aircraft_positions (aircraftPixel gb ap) ap
        else s.aircraft_positions := by
  cases hp : ap.is_plottable <;> cases hg : (sg && ap.on_ground) <;>
    cases hb : altBelowThreshold thr ap <;>
    simp [drawStep, drawPasses, hp, hg, hb]

/-- One loop step appends an icon exactly when `drawPasses` holds. -/
theorem drawStep_drawn (sg : Bool) (thr : ℚ) (gb : ℝ × ℝ × ℝ × ℝ)
    (s : DrawState) (ap : AircraftState) :
    (drawStep sg thr gb s ap).drawn
      = if drawPasses sg thr ap then s.drawn ++ [(aircraftPixel gb ap, ap)] else s.drawn := by
  cases hp : ap.is_plottable <;> cases hg : (sg && ap.on_ground) <;>
    cases hb : altBelowThreshold thr ap <;>
    simp [drawStep, drawPasses, hp, hg, hb]

/-- The loop's ground tally counts `groundCond`. -/
theorem draw_foldl_n_ground (sg : Bool) (thr : ℚ) (gb : ℝ × ℝ × ℝ × ℝ) :
    ∀ (l : List AircraftState) (s : DrawState),
      (l.foldl (drawStep sg thr gb) s).n_ground = s.n_ground + l.countP (groundCond sg thr) := by
  intro l
  induction l with
  | nil => intro s; simp
  | cons a rest ih =>
    intro s
    rw [List.foldl_cons, List.countP_cons, ih, drawStep_n_ground]
    by_cases h : groundCond sg thr a
    · simp [h]
      omega
    · simp [h]

/-- The loop's missing-data tally counts `missingDataCond`. -/
theorem draw_foldl_n_unplottable (sg : Bool) (thr : ℚ) (gb : ℝ × ℝ × ℝ × ℝ) :
    ∀ (l : List AircraftState) (s : DrawState),
      (l.foldl (drawStep sg thr gb) s).n_unplottable
        = s.n_unplottable + l.countP missingDataCond := by
  intro l
  induction l with
  | nil => intro s; simp
  | cons a rest ih =>
    intro s
    rw [List.foldl_cons, List.countP_cons, ih, drawStep_n_unplottable]
    by_cases h : missingDataCond a
    · simp [h]
      omega
    · simp [h]

/-- The loop's position cache is the insert-fold over the passing aircraft. -/
theorem draw_foldl_positions (sg : Bool) (thr : ℚ) (gb : ℝ × ℝ × ℝ × ℝ) :
    ∀ (l : List AircraftState) (s : DrawState),
      (l.foldl (drawStep sg thr gb) s).aircraft_positions
        = (l.filter (drawPasses sg thr)).foldl
            (fun m ap => dictInsert m (aircraftPixel gb ap) ap) s.aircraft_positions := by
  intro l
  induction l with
  | nil => intro s; simp
  | cons a rest ih =>
    intro s
    rw [List.foldl_cons, List.filter_cons, ih]
    by_cases h : drawPasses sg thr a
    · rw [if_pos h, List.foldl_cons]
      congr 1
      rw [drawStep_positions, if_pos h]
    · rw [if_neg h]
      congr 1
      rw [drawStep_positions, if_neg h]

/-- The icons appended by the loop are exactly the passing aircraft, in input
order, at their projected pixels. -/
theorem draw_foldl_drawn (sg : Bool) (thr : ℚ) (gb : ℝ × ℝ × ℝ × ℝ) :
    ∀ (l : List AircraftState) (s : DrawState),
      (l.foldl (drawStep sg thr gb) s).drawn
        = s.drawn ++ (l.filter (drawPasses sg thr)).map (fun ap => (aircraftPixel gb ap, ap)) := by
  intro l
  induction l with
  | nil => intro s; simp
  | cons a rest ih =>
    intro s
    rw [List.foldl_cons, List.filter_cons, ih]
    by_cases h : drawPasses sg thr a
    · rw [if_pos h, List.map_cons, drawStep_drawn, if_pos h]
      simp
    · rw [if_neg h, drawStep_drawn, if_neg h]

/-- Lookup after an in-place dict insert. -/
theorem dictLookup_dictInsert (m : List ((ℤ × ℤ) × AircraftState)) (k : ℤ × ℤ)
    (v : AircraftState) (k2 : ℤ × ℤ) :
    dictLookup (dictInsert m k v) k2 = if k = k2 then some v else dictLookup m k2 := by
  induction m with
  | nil => rfl
  | cons hd tl ih =>
    obtain ⟨k0, v0⟩ := hd
    by_cases h0 : k0 = k
    · subst h0
      by_cases h2 : k0 = k2
      · subst h2
        simp [dictInsert, dictLookup]
      · simp [dictInsert, dictLookup, h2]
    · by_cases h2 : k0 = k2
      · have hk : ¬(k = k2) := fun hk => h0 (h2.trans hk.symm)
        have hk2 : ¬(k2 = k) := fun hx => hk hx.symm
        simp [dictInsert, dictLookup, h0, h2, hk, hk2]
      · simp [dictInsert, dictLookup, h0, h2, ih]

/-- `getLast?` of a cons, expressed with `Option.or`. -/
theorem getLast_cons_or {α : Type} (a : α) (l : List α) :
    (a :: l).getLast? = (l.getLast?).or (some a) := by
  cases l with
  | nil => rfl
  | cons b t =>
    rw [List.getLast?_cons_cons]
    have h : ((b :: t) : List α).getLast?.isSome := by
      rw [List.getLast?_isSome]
      exact List.cons_ne_nil b t
    obtain ⟨x, hx⟩ := Option.isSome_iff_exists.mp h
    rw [hx]
    rfl

/-- `Option.or` is associative. -/
theorem option_or_assoc {α : Type} (x y z : Option α) :
    (x.or y).or z = x.or (y.or z) := by
  cases x <;> rfl

/-- Lookup in the insert-fold: the last inserted binding for a pixel wins,
falling back to the initial dict. -/
theorem dictLookup_insert_foldl (gb : ℝ × ℝ × ℝ × ℝ) :
    ∀ (ps : List AircraftState) (m : List ((ℤ × ℤ) × AircraftState)) (px : ℤ × ℤ),
      dictLookup (ps.foldl (fun m ap => dictInsert m (aircraftPixel gb ap) ap) m) px
        = ((ps.filter fun ap => aircraftPixel gb ap == px).getLast?).or (dictLookup m px) := by
  intro ps
  induction ps with
  | nil => intro m px; rfl
  | cons a rest ih =>
    intro m px
    rw [List.foldl_cons, List.filter_cons, ih]
    by_cases h : aircraftPixel gb a = px
    · rw [if_pos (by simpa using h), getLast_cons_or, option_or_assoc]
      congr 1
      rw [dictLookup_dictInsert, if_pos h]
      rfl
    · rw [if_neg (by simpa using h)]
      congr 1
      rw [dictLookup_dictInsert, if_neg h]

/-- Membership in the insert-fold comes from the initial dict or from one of
the inserted aircraft. -/
theorem mem_dictInsert (m : List ((ℤ × ℤ) × AircraftState)) (k : ℤ × ℤ) (v : AircraftState)
    (q : (ℤ × ℤ) × AircraftState) (hq : q ∈ dictInsert m k v) : q ∈ m ∨ q = (k, v) := by
  induction m with
  | nil =>
    rw [dictInsert] at hq
    rcases List.mem_singleton.mp hq with rfl
    exact Or.inr rfl
  | cons hd tl ih =>
    obtain ⟨k0, v0⟩ := hd
    rw [dictInsert] at hq
    by_cases h0 : k0 = k
    · rw [if_pos h0] at hq
      rcases List.mem_cons.mp hq with rfl | hq2
      · exact Or.inr rfl
      · exact Or.inl (List.mem_cons_of_mem _ hq2)
    · rw [if_neg h0] at hq
      rcases List.mem_cons.mp hq with rfl | hq2
      · exact Or.inl (List.mem_cons_self _ _)
      · rcases ih hq2 with hm | rfl
        · exact Or.inl (List.mem_cons_of_mem _ hm)
        · exact Or.inr rfl

/-- Every entry of the insert-fold is an initial entry or holds one of the
inserted aircraft as its value. -/
theorem mem_insert_foldl (gb : ℝ × ℝ × ℝ × ℝ) :
    ∀ (ps : List AircraftState) (m : List ((ℤ × ℤ) × AircraftState))
      (q : (ℤ × ℤ) × AircraftState),
      q ∈ ps.foldl (fun m ap => dictInsert m (aircraftPixel gb ap) ap) m →
      q ∈ m ∨ q.2 ∈ ps := by
  intro ps
  induction ps with
  | nil => intro m q hq; exact Or.inl hq
  | cons a rest ih =>
    intro m q hq
    rw [List.foldl_cons] at hq
    rcases ih _ q hq with hm | hr
    · rcases mem_dictInsert _ _ _ _ hm with hm2 | rfl
      · exact Or.inl hm2
      · exact Or.inr (List.mem_cons_self _ _)
    · exact Or.inr (List.mem_cons_of_mem _ hr)

/-- A key present after an insert was present before, unless it is the
inserted key. -/
theorem keys_dictInsert_subset (m : List ((ℤ × ℤ) × AircraftState)) (k : ℤ × ℤ)
    (v : AircraftState) (k2 : ℤ × ℤ)
    (h : k2 ∈ (dictInsert m k v).map Prod.fst) : k2 ∈ m.map Prod.fst ∨ k2 = k := by
  rcases List.mem_map.mp h with ⟨q, hq, rfl⟩
  rcases mem_dictInsert m k v q hq with hm | rfl
  · exact Or.inl (List.mem_map.mpr ⟨q, hm, rfl⟩)
  · exact Or.inr rfl

/-- In-place insert keeps the dict's keys distinct. -/
theorem dictInsert_keys_nodup (m : List ((ℤ × ℤ) × AircraftState)) (k : ℤ × ℤ)
    (v : AircraftState) (h : (m.map Prod.fst).Nodup) :
    ((dictInsert m k v).map Prod.fst).Nodup := by
  induction m with
  | nil => simp [dictInsert]
  | cons hd tl ih =>
    obtain ⟨k0, v0⟩ := hd
    rw [List.map_cons, List.nodup_cons] at h
    by_cases h0 : k0 = k
    · subst h0
      rw [dictInsert, if_pos rfl, List.map_cons, List.nodup_cons]
      exact ⟨h.1, h.2⟩
    · rw [dictInsert, if_neg h0, List.map_cons, List.nodup_cons]
      refine ⟨?_, ih h.2⟩
      intro hk0
      rcases keys_dictInsert_subset tl k v k0 hk0 with hm | rfl
      · exact h.1 hm
      · exact h0 rfl

/-- The insert-fold keeps the dict's keys distinct. -/
theorem insert_foldl_keys_nodup (gb : ℝ × ℝ × ℝ × ℝ) :
    ∀ (ps : List AircraftState) (m : List ((ℤ × ℤ) × AircraftState)),
      (m.map Prod.fst).Nodup →
      ((ps.foldl (fun m ap => dictInsert m (aircraftPixel gb ap) ap) m).map Prod.fst).Nodup := by
  intro ps
  induction ps with
  | nil => intro m hm; exact hm
  | cons a rest ih =>
    intro m hm
    rw [List.foldl_cons]
    exact ih _ (dictInsert_keys_nodup _ _ _ hm)

/-- C10: the per-frame hit-test cache maps each pixel to at most one aircraft
(its keys are distinct); the binding at any pixel is the *last* passing
aircraft of the input list that projects there; and a nearest-aircraft query
can only return an aircraft still registered in the cache. -/
theorem draw_aircraft_pixel_cache_last_wins (l : List AircraftState) (sg : Bool) (thr : ℚ)
    (gb : ℝ × ℝ × ℝ × ℝ) (px : ℤ × ℤ) :
    (((draw_aircraft l sg thr gb).aircraft_positions).map Prod.fst).Nodup ∧
    dictLookup (draw_aircraft l sg thr gb).aircraft_positions px
      = ((l.filter (drawPasses sg thr)).filter fun ap => aircraftPixel gb ap == px).getLast? ∧
    (∀ (touch : ℤ × ℤ) (thr2 : ℝ) (ac : AircraftState),
      _closest_aircraft (draw_aircraft l sg thr gb).aircraft_positions touch thr2 = some ac →
      ∃ q, (q, ac) ∈ (draw_aircraft l sg thr gb).aircraft_positions) := by
  refine ⟨?_, ?_, ?_⟩
  · rw [draw_aircraft, draw_foldl_positions]
    exact insert_foldl_keys_nodup gb _ _ (by simp)
  · rw [draw_aircraft, draw_foldl_positions, dictLookup_insert_foldl]
    cases ((l.filter (drawPasses sg thr)).filter fun ap => aircraftPixel gb ap == px).getLast? <;>
      rfl
  · intro touch thr2 ac hres
    have hne : (draw_aircraft l sg thr gb).aircraft_positions ≠ [] := by
      intro h0
      rw [h0] at hres
      cases hres
    obtain ⟨p, hpmem, _, heq⟩ := closest_aircraft_spec _ touch thr2 hne
    rw [heq] at hres
    by_cases hth : thr2 < dist_px p.1 touch
    · rw [if_pos hth] at hres; cases hres
    · rw [if_neg hth] at hres
      injection hres with h2
      subst h2
      exact ⟨p.1, hpmem⟩

/-- C9: an aircraft that is plottable and not ground-filtered but has a
missing or below-threshold geometric altitude is skipped by `draw_aircraft` —
it is neither drawn nor entered into the hit-test cache — and it is tallied
in the "on ground" count, not the "missing data" count. -/
theorem draw_aircraft_altitude_skip (l : List AircraftState) (sg : Bool) (thr : ℚ)
    (gb : ℝ × ℝ × ℝ × ℝ) (ap : AircraftState)
    (hmem : ap ∈ l) (hp : ap.is_plottable = true)
    (hg : ¬(sg = true ∧ ap.on_ground = true))
    (halt : ap.geo_altitude_m = none ∨ ∃ g, ap.geo_altitude_m = some g ∧ g < thr) :
    (∀ q ∈ (draw_aircraft l sg thr gb).aircraft_positions, q.2 ≠ ap) ∧
    (∀ q ∈ (draw_aircraft l sg thr gb).drawn, q.2 ≠ ap) ∧
    groundCond sg thr ap = true ∧ missingDataCond ap = false ∧
    (draw_aircraft l sg thr gb).n_ground = l.countP (groundCond sg thr) ∧
    0 < (draw_aircraft l sg thr gb).n_ground ∧
    (draw_aircraft l sg thr gb).n_unplottable = l.countP missingDataCond := by
  have hbelow : altBelowThreshold thr ap = true := by
    rcases halt with h0 | ⟨g, hg0, hlt⟩
    · rw [altBelowThreshold, h0]
    · rw [altBelowThreshold, hg0]
      simp [hlt]
  have hgb : (sg && ap.on_ground) = false := by
    cases hs : sg <;> cases hob : ap.on_ground <;> simp_all
  have hpass : drawPasses sg thr ap = false := by
    rw [drawPasses, hp, hbelow, hgb]
    rfl
  have hground : groundCond sg thr ap = true := by
    rw [groundCond, hp, hbelow, hgb]
    rfl
  refine ⟨?_, ?_, hground, by rw [missingDataCond, hp]; rfl, ?_, ?_, ?_⟩
  · intro q hq
    rw [draw_aircraft, draw_foldl_positions] at hq
    rcases mem_insert_foldl gb _ _ q hq with hm | hr
    · exact absurd hm (List.not_mem_nil q)
    · intro hqe
      have hf := List.of_mem_filter hr
      rw [hqe, hpass] at hf
      cases hf
  · intro q hq
    rw [draw_aircraft, draw_foldl_drawn] at hq
    simp only [List.nil_append] at hq
    rcases List.mem_map.mp hq with ⟨b, hb, rfl⟩
    intro hqe
    have hbf := List.of_mem_filter hb
    simp only at hqe
    rw [hqe, hpass] at hbf
    cases hbf
  · rw [draw_aircraft, draw_foldl_n_ground]
    simp
  · rw [draw_aircraft, draw_foldl_n_ground]
    have hpos := List.countP_pos_iff.mpr ⟨ap, hmem, hground⟩
    simpa using hpos
  · rw [draw_aircraft, draw_foldl_n_unplottable]
    simp

/-- C9 witness: the altitude-skip theorem applied to a one-aircraft frame. -/
theorem draw_aircraft_altitude_skip_witness :
    (∀ q ∈ (draw_aircraft [apAltitudeSkip] true 20 (0, 0, 0, 0)).aircraft_positions,
      q.2 ≠ apAltitudeSkip) ∧
    (∀ q ∈ (draw_aircraft [apAltitudeSkip] true 20 (0, 0, 0, 0)).drawn, q.2 ≠ apAltitudeSkip) ∧
    groundCond true 20 apAltitudeSkip = true ∧ missingDataCond apAltitudeSkip = false ∧
    (draw_aircraft [apAltitudeSkip] true 20 (0, 0, 0, 0)).n_ground
      = [apAltitudeSkip].countP (groundCond true 20) ∧
    0 < (draw_aircraft [apAltitudeSkip] true 20 (0, 0, 0, 0)).n_ground ∧
    (draw_aircraft [apAltitudeSkip] true 20 (0, 0, 0, 0)).n_unplottable
      = [apAltitudeSkip].countP missingDataCond :=
  draw_aircraft_altitude_skip [apAltitudeSkip] true 20 (0, 0, 0, 0) apAltitudeSkip
    (List.mem_singleton.mpr rfl) rfl (fun h => by cases h.2) (Or.inl rfl)
